import Mathlib

/-!
Verification development for the `patronus` repository.

Two subsystems are embedded here, following the source:

* the Ansible Config Synchronizer modules
  `plugins/modules/firewall_rule.py` and `plugins/modules/nat_rule.py`,
  modelled as pure state-transformers over an explicit file-system map
  (YAML serialization is treated as a faithful external service, per the
  spec's scope section: a written document reads back as the same value);
* the Python SDK (`patronus/client.py`, `patronus/exceptions.py`,
  `patronus/models.py`): the error classifier `BaseClient._handle_error`,
  the exception hierarchy, and the async sites resource group, modelled as
  functions from an HTTP response (status code plus decoded JSON body) to
  a result-or-typed-failure value.

Python dictionaries / decoded YAML and JSON values are embedded as the
inductive `Yv`; dictionaries keep insertion order (Python 3.7+ dicts), so
they are association lists built in the order the source inserts keys.
-/

/-- A decoded YAML/JSON value (Python scalars, lists and dicts as produced
by `yaml.safe_load` / `response.json()`). Dicts are insertion-ordered
association lists. -/
inductive Yv where
  | str (v : String)
  | int (v : Int)
  | bool (v : Bool)
  | list (vs : List Yv)
  | map (kvs : List (String × Yv))

mutual

/-- Python `==` on decoded values (structural; dicts are compared as the
ordered association lists the source builds). -/
def Yv.beq : Yv → Yv → Bool
  | .str a, .str b => a == b
  | .int a, .int b => a == b
  | .bool a, .bool b => a == b
  | .list as, .list bs => Yv.beqList as bs
  | .map as, .map bs => Yv.beqMap as bs
  | _, _ => false

/-- Python `==` on decoded lists, element-wise. -/
def Yv.beqList : List Yv → List Yv → Bool
  | [], [] => true
  | a :: as, b :: bs => Yv.beq a b && Yv.beqList as bs
  | _, _ => false

/-- Python `==` on dict entry lists, entry-wise. -/
def Yv.beqMap : List (String × Yv) → List (String × Yv) → Bool
  | [], [] => true
  | (k1, v1) :: as, (k2, v2) :: bs =>
      k1 == k2 && Yv.beq v1 v2 && Yv.beqMap as bs
  | _, _ => false

end

/-- Python `==` lifted to optional values (`None == None` is `True`,
`None` never equals a present value). -/
def pyOptEq : Option Yv → Option Yv → Bool
  | none, none => true
  | some a, some b => Yv.beq a b
  | _, _ => false

/-- First-match lookup in an association list (Python dict lookup; dicts
hold each key at most once). -/
def lookupFirst (k : String) : List (String × Yv) → Option Yv
  | [] => none
  | (k', v) :: rest => if k' = k then some v else lookupFirst k rest

/-- Python `d.get(k)` on a decoded value: key lookup on a dict, `none`
otherwise. -/
def Yv.getKey : Yv → String → Option Yv
  | .map kvs, k => lookupFirst k kvs
  | _, _ => none

/-- Python `d.get(k, default)`. -/
def Yv.getKeyD (v : Yv) (k : String) (d : Yv) : Yv :=
  (v.getKey k).getD d

/-- Whether a decoded value is a dict (the only shape that supports
Python's `.get`). -/
def Yv.isMap : Yv → Bool
  | .map _ => true
  | _ => false

/-- `if params.get(key): d[key] = value` for a string-valued optional
parameter: the entry is inserted only when the parameter is provided and
truthy (a non-empty string). -/
def optStrEntry (key : String) : Option String → List (String × Yv)
  | none => []
  | some s => if s = "" then [] else [(key, Yv.str s)]

/-- `if params.get(key): d[key] = value` for an int-valued optional
parameter: the entry is inserted only when the parameter is provided and
truthy (non-zero). -/
def optIntEntry (key : String) : Option Int → List (String × Yv)
  | none => []
  | some n => if n = 0 then [] else [(key, Yv.int n)]

/-- `if params.get(key): d[key] = value` for a list-of-int-valued optional
parameter: the entry is inserted only when the parameter is provided and
truthy (a non-empty list). -/
def optIntListEntry (key : String) : Option (List Int) → List (String × Yv)
  | none => []
  | some l => if l = [] then [] else [(key, Yv.list (l.map Yv.int))]

/-- `if sub: d[key] = sub` — a sub-dict is attached only when non-empty
(Python dict truthiness). -/
def subMapEntry (key : String) (entries : List (String × Yv)) :
    List (String × Yv) :=
  match entries with
  | [] => []
  | es => [(key, Yv.map es)]

/-! ### The file-system model for the Config Synchronizer

A file either does not exist, holds YAML that parses to a document, or
holds contents that fail to parse. YAML serialization itself is an
external collaborator (out of scope per the spec), modelled as faithful:
`write_config` stores the document and a later read parses it back. -/

/-- Contents of one on-disk file, as seen through the YAML parser. -/
inductive FileContent where
  | parses (doc : Yv)
  | malformed

/-- The file system: a map from paths to file contents. -/
def FS : Type := String → Option FileContent

/-- An empty file system (no document exists anywhere). -/
def emptyFS : FS := fun _ => none

/-- `read_existing_config` (identical in `firewall_rule.py` and
`nat_rule.py`): `None` when the file does not exist, and `None` when the
contents fail to parse (the bare `except Exception: return None`). -/
def read_existing_config (fs : FS) (filepath : String) : Option Yv :=
  match fs filepath with
  | none => none
  | some .malformed => none
  | some (.parses doc) => some doc

/-- `write_config` (identical in both modules): store the document at the
path (YAML dump, modelled as faithful round-trip). -/
def write_config (fs : FS) (filepath : String) (config : Yv) : FS :=
  fun p => if p = filepath then some (.parses config) else fs p

/-- `delete_config` (identical in both modules): remove the file if
present. -/
def delete_config (fs : FS) (filepath : String) : FS :=
  fun p => if p = filepath then none else fs p

/-- `configs_equal` (identical in both modules): `None` operands compare
by `==`; otherwise compare `metadata.name` and the full `spec` mapping,
ignoring every other field. -/
def configs_equal (config1 config2 : Option Yv) : Bool :=
  match config1, config2 with
  | some c1, some c2 =>
      pyOptEq ((c1.getKeyD "metadata" (.map [])).getKey "name")
          ((c2.getKeyD "metadata" (.map [])).getKey "name")
        && pyOptEq (c1.getKey "spec") (c2.getKey "spec")
  | c1, c2 => pyOptEq c1 c2

/-- Whether a path string begins with the separator (is absolute). -/
def startsWithSlash (s : String) : Bool :=
  match s.data with
  | [] => false
  | c :: _ => c = '/'

/-- Whether a path string ends with the separator. -/
def endsWithSlash (s : String) : Bool :=
  match s.data.getLast? with
  | some c => c = '/'
  | none => false

/-- `os.path.join` for the two-argument uses in the modules: an absolute
second component wins; otherwise the components are joined with exactly
one separator. -/
def osPathJoin (a b : String) : String :=
  if startsWithSlash b then b
  else if a = "" then b
  else if endsWithSlash a then a ++ b
  else a ++ "/" ++ b

/-- The structured result an invocation reports: the `changed` flag, the
human-readable `message`, and the `rule` document (present only on the
`state=present` path). -/
structure ModuleResult where
  changed : Bool
  message : String
  rule : Option Yv

namespace firewall_rule

/-- The validated parameters of `firewall_rule.py` per its
`argument_spec`: optional parameters default to absent, `log` to false,
`enabled` to true, `state` to `present`, `config_path` to
`/etc/patronus/config`. -/
structure Params where
  name : String
  description : Option String := none
  action : String
  interface : Option String := none
  direction : Option String := none
  protocol : Option String := none
  source_address : Option String := none
  source_ports : Option (List Int) := none
  dest_address : Option String := none
  dest_ports : Option (List Int) := none
  log : Bool := false
  enabled : Bool := true
  state : String := "present"
  config_path : String := "/etc/patronus/config"

/-- The entries of the generated `source` sub-dict (before the
truthiness check that decides whether it is attached). -/
def sourceEntries (p : Params) : List (String × Yv) :=
  optStrEntry "address" p.source_address
    ++ optIntListEntry "ports" p.source_ports

/-- The entries of the generated `destination` sub-dict. -/
def destEntries (p : Params) : List (String × Yv) :=
  optStrEntry "address" p.dest_address
    ++ optIntListEntry "ports" p.dest_ports

/-- The entries of the generated `spec` dict, in insertion order. -/
def specEntries (p : Params) : List (String × Yv) :=
  [("action", Yv.str p.action),
   ("log", Yv.bool p.log),
   ("enabled", Yv.bool p.enabled)]
    ++ optStrEntry "interface" p.interface
    ++ optStrEntry "direction" p.direction
    ++ optStrEntry "protocol" p.protocol
    ++ subMapEntry "source" (sourceEntries p)
    ++ subMapEntry "destination" (destEntries p)

/-- `generate_config` of `firewall_rule.py`. -/
def generate_config (p : Params) : Yv :=
  Yv.map
    [("apiVersion", Yv.str "patronus.firewall/v1"),
     ("kind", Yv.str "FirewallRule"),
     ("metadata",
       Yv.map ([("name", Yv.str p.name)]
         ++ optStrEntry "description" p.description)),
     ("spec", Yv.map (specEntries p))]

/-- `config_file_path` of `firewall_rule.py`. -/
def config_file_path (config_path name : String) : String :=
  osPathJoin config_path ("FirewallRule-" ++ name ++ ".yaml")

/-- `main` of `firewall_rule.py`, as a pure state transformer: given the
validated parameters, the check-mode flag and the file system, it returns
the reported result and the resulting file system. -/
def main (p : Params) (check_mode : Bool) (fs : FS) : ModuleResult × FS :=
  let filepath := config_file_path p.config_path p.name
  let existing_config := read_existing_config fs filepath
  if p.state = "present" then
    let desired_config := generate_config p
    if configs_equal existing_config (some desired_config) then
      ({ changed := false,
         message := "Firewall rule \x27" ++ p.name
           ++ "\x27 already exists with desired configuration",
         rule := some desired_config }, fs)
    else
      ({ changed := true,
         message :=
           match existing_config with
           | none => "Created firewall rule \x27" ++ p.name ++ "\x27"
           | some _ => "Updated firewall rule \x27" ++ p.name ++ "\x27",
         rule := some desired_config },
       if check_mode then fs else write_config fs filepath desired_config)
  else if p.state = "absent" then
    match existing_config with
    | some _ =>
        ({ changed := true,
           message := "Deleted firewall rule \x27" ++ p.name ++ "\x27",
           rule := none },
         if check_mode then fs else delete_config fs filepath)
    | none =>
        ({ changed := false,
           message := "Firewall rule \x27" ++ p.name ++ "\x27 already absent",
           rule := none }, fs)
  else
    ({ changed := false, message := "", rule := none }, fs)

end firewall_rule

namespace nat_rule

/-- The validated parameters of `nat_rule.py` per its `argument_spec`. -/
structure Params where
  name : String
  description : Option String := none
  nat_type : String
  interface : String
  source_address : Option String := none
  dest_address : Option String := none
  translation_address : Option String := none
  translation_port : Option Int := none
  protocol : Option String := none
  dest_port : Option Int := none
  enabled : Bool := true
  state : String := "present"
  config_path : String := "/etc/patronus/config"

/-- The entries of the generated `spec` dict of `nat_rule.py`, in
insertion order: the three required fields, then each optional field
appended only when its parameter is truthy. -/
def specEntries (p : Params) : List (String × Yv) :=
  [("nat_type", Yv.str p.nat_type),
   ("interface", Yv.str p.interface),
   ("enabled", Yv.bool p.enabled)]
    ++ optStrEntry "source_address" p.source_address
    ++ optStrEntry "dest_address" p.dest_address
    ++ optStrEntry "translation_address" p.translation_address
    ++ optIntEntry "translation_port" p.translation_port
    ++ optStrEntry "protocol" p.protocol
    ++ optIntEntry "dest_port" p.dest_port

/-- `generate_config` of `nat_rule.py`. -/
def generate_config (p : Params) : Yv :=
  Yv.map
    [("apiVersion", Yv.str "patronus.firewall/v1"),
     ("kind", Yv.str "NatRule"),
     ("metadata",
       Yv.map ([("name", Yv.str p.name)]
         ++ optStrEntry "description" p.description)),
     ("spec", Yv.map (specEntries p))]

/-- `config_file_path` of `nat_rule.py`. -/
def config_file_path (config_path name : String) : String :=
  osPathJoin config_path ("NatRule-" ++ name ++ ".yaml")

/-- `main` of `nat_rule.py`, as a pure state transformer. -/
def main (p : Params) (check_mode : Bool) (fs : FS) : ModuleResult × FS :=
  let filepath := config_file_path p.config_path p.name
  let existing_config := read_existing_config fs filepath
  if p.state = "present" then
    let desired_config := generate_config p
    if configs_equal existing_config (some desired_config) then
      ({ changed := false,
         message := "NAT rule \x27" ++ p.name
           ++ "\x27 already exists with desired configuration",
         rule := some desired_config }, fs)
    else
      ({ changed := true,
         message :=
           match existing_config with
           | none => "Created NAT rule \x27" ++ p.name ++ "\x27"
           | some _ => "Updated NAT rule \x27" ++ p.name ++ "\x27",
         rule := some desired_config },
       if check_mode then fs else write_config fs filepath desired_config)
  else if p.state = "absent" then
    match existing_config with
    | some _ =>
        ({ changed := true,
           message := "Deleted NAT rule \x27" ++ p.name ++ "\x27",
           rule := none },
         if check_mode then fs else delete_config fs filepath)
    | none =>
        ({ changed := false,
           message := "NAT rule \x27" ++ p.name ++ "\x27 already absent",
           rule := none }, fs)
  else
    ({ changed := false, message := "", rule := none }, fs)

end nat_rule

/-! ### The SDK: exception hierarchy and error classifier

`patronus/exceptions.py` defines `PatronusError` with four concrete
failure classes below it. `AuthenticationError` extends `PatronusError`
directly and stores only the message; `APIError` (and its subclasses
`NotFoundError` and `RateLimitError`) additionally stores `status_code`
and `response`, both defaulting to `None`. The hierarchy is embedded as a
tagged union with accessor functions; an absent attribute is `none`. The
message is the raw value taken from the decoded body, hence a `Yv`. -/

/-- The concrete Patronus failure raised by the client. -/
inductive PatronusExc where
  | authenticationError (message : Yv)
  | notFoundError (message : Yv) (status_code : Option Int)
      (response : Option Yv)
  | rateLimitError (message : Yv) (status_code : Option Int)
      (response : Option Yv)
  | apiError (message : Yv) (status_code : Option Int) (response : Option Yv)

/-- The message the failure was constructed with (`str(error)` in the
tests). -/
def PatronusExc.message : PatronusExc → Yv
  | .authenticationError m => m
  | .notFoundError m _ _ => m
  | .rateLimitError m _ _ => m
  | .apiError m _ _ => m

/-- The `status_code` attribute of the failure; `AuthenticationError`
does not define one (it extends `PatronusError` directly, not
`APIError`), embedded as `none`. -/
def PatronusExc.statusCode : PatronusExc → Option Int
  | .authenticationError _ => none
  | .notFoundError _ sc _ => sc
  | .rateLimitError _ sc _ => sc
  | .apiError _ sc _ => sc

/-- `response_data.get("error", "Unknown error")` in
`BaseClient._handle_error`. -/
def extractedMessage (response_data : List (String × Yv)) : Yv :=
  (lookupFirst "error" response_data).getD (Yv.str "Unknown error")

/-- `BaseClient._handle_error` of `patronus/client.py`: classify a status
code plus decoded error body into the failure it raises. Total: it always
raises exactly one of the four failures. -/
def handle_error (status_code : Int) (response_data : List (String × Yv)) :
    PatronusExc :=
  let message := extractedMessage response_data
  if status_code = 401 then
    .authenticationError message
  else if status_code = 404 then
    .notFoundError message (some status_code) (some (.map response_data))
  else if status_code = 429 then
    .rateLimitError message (some status_code) (some (.map response_data))
  else
    .apiError message (some status_code) (some (.map response_data))

/-! ### The SDK: typed models and the async sites resource group

`patronus/models.py` defines `Site` as a pydantic record. Timestamps are
kept as their wire strings (datetime parsing is an external service).
The async methods of `AsyncSitesAPI` are embedded as functions of the
HTTP response they receive: its status code and its JSON-decoded body. -/

/-- The `Site` record of `patronus/models.py`. -/
structure Site where
  id : String
  name : String
  location : String
  wan_interfaces : List String
  created_at : String
  updated_at : String
  metadata : List (String × Yv)

/-- Decode a required string field of a pydantic record. -/
def getStrField (kvs : List (String × Yv)) (k : String) : Option String :=
  match lookupFirst k kvs with
  | some (.str s) => some s
  | _ => none

/-- Decode a list of strings. -/
def decodeStrList : List Yv → Option (List String)
  | [] => some []
  | .str s :: rest => (decodeStrList rest).map (s :: ·)
  | _ => none

/-- Decode a required list-of-strings field. -/
def getStrListField (kvs : List (String × Yv)) (k : String) :
    Option (List String) :=
  match lookupFirst k kvs with
  | some (.list vs) => decodeStrList vs
  | _ => none

/-- Decode the `metadata` field, whose pydantic default is the empty
dict. -/
def getMetadataField (kvs : List (String × Yv)) :
    Option (List (String × Yv)) :=
  match lookupFirst "metadata" kvs with
  | some (.map m) => some m
  | none => some []
  | some _ => none

/-- `Site(**item)`: pydantic validation of one decoded JSON object into a
`Site` (required fields present with the right shapes; extra keys
ignored; failure is a validation error, `none` here). -/
def decodeSite : Yv → Option Site
  | .map kvs => do
      let id ← getStrField kvs "id"
      let name ← getStrField kvs "name"
      let location ← getStrField kvs "location"
      let wan_interfaces ← getStrListField kvs "wan_interfaces"
      let created_at ← getStrField kvs "created_at"
      let updated_at ← getStrField kvs "updated_at"
      let metadata ← getMetadataField kvs
      pure { id, name, location, wan_interfaces, created_at, updated_at,
             metadata }
  | _ => none

/-- `[Site(**item) for item in data["sites"]]`: the collection lookup
plus element-wise decoding of a list response. -/
def decodeSitesBody (body : Yv) : Option (List Site) :=
  match body.getKey "sites" with
  | some (.list items) => items.mapM decodeSite
  | _ => none

/-- An HTTP response as the async client sees it: the status code and the
JSON-decoded body (`response.json()`). -/
structure HttpResponse where
  status_code : Int
  json : Yv

/-- The observable outcome of one async client call: a normal return, a
raised typed Patronus failure, or a raised untyped (non-Patronus)
exception — a `KeyError` or pydantic validation error while decoding a
success body, or the `AttributeError` that `response_data.get` raises
inside `_handle_error` when the decoded error body is not a dict. -/
inductive CallResult (α : Type) where
  | ok (value : α)
  | apiFailure (e : PatronusExc)
  | decodeFailure

/-- `self.client._handle_error(response.status_code, response.json())`
as the caller observes it: when the decoded body is a dict, exactly one
typed failure is raised; on any other decoded body (array, string,
number, ...) `response_data.get("error", ...)` raises an untyped
`AttributeError` inside the classifier instead. -/
def raiseClassified {α : Type} (status_code : Int) (body : Yv) :
    CallResult α :=
  match body with
  | .map kvs => .apiFailure (handle_error status_code kvs)
  | _ => .decodeFailure

namespace AsyncSitesAPI

/-- `AsyncSitesAPI.list`: anything but status 200 goes through
`_handle_error` before any decoding; on 200 the body is decoded as the
`sites` collection. -/
def list (resp : HttpResponse) : CallResult (List Site) :=
  if resp.status_code ≠ 200 then
    raiseClassified resp.status_code resp.json
  else
    match decodeSitesBody resp.json with
    | some sites => .ok sites
    | none => .decodeFailure

/-- `AsyncSitesAPI.get`: anything but status 200 goes through
`_handle_error`; on 200 the body is decoded as one `Site`. -/
def get (resp : HttpResponse) : CallResult Site :=
  if resp.status_code ≠ 200 then
    raiseClassified resp.status_code resp.json
  else
    match decodeSite resp.json with
    | some site => .ok site
    | none => .decodeFailure

/-- `AsyncSitesAPI.create`: anything but the literal status 201 goes
through `_handle_error`; on 201 the body is decoded as one `Site`. -/
def create (resp : HttpResponse) : CallResult Site :=
  if resp.status_code ≠ 201 then
    raiseClassified resp.status_code resp.json
  else
    match decodeSite resp.json with
    | some site => .ok site
    | none => .decodeFailure

/-- `AsyncSitesAPI.delete`: anything but the literal status 204 goes
through `_handle_error`; on 204 the call returns unit without reading
the body. -/
def delete (resp : HttpResponse) : CallResult Unit :=
  if resp.status_code ≠ 204 then
    raiseClassified resp.status_code resp.json
  else
    .ok ()

end AsyncSitesAPI

/-! ### General lemmas about the embedded operations -/

mutual

theorem Yv.beq_refl : (a : Yv) → Yv.beq a a = true
  | .str x => by simp [Yv.beq]
  | .int x => by simp [Yv.beq]
  | .bool x => by simp [Yv.beq]
  | .list vs => by simpa [Yv.beq] using Yv.beqList_refl vs
  | .map kvs => by simpa [Yv.beq] using Yv.beqMap_refl kvs

theorem Yv.beqList_refl : (as : List Yv) → Yv.beqList as as = true
  | [] => rfl
  | a :: as => by
      simp only [Yv.beqList, Bool.and_eq_true]
      exact ⟨Yv.beq_refl a, Yv.beqList_refl as⟩

theorem Yv.beqMap_refl : (as : List (String × Yv)) → Yv.beqMap as as = true
  | [] => rfl
  | (k, v) :: as => by
      simp only [Yv.beqMap, Bool.and_eq_true, beq_self_eq_true, true_and]
      exact ⟨Yv.beq_refl v, Yv.beqMap_refl as⟩

end

theorem pyOptEq_refl (o : Option Yv) : pyOptEq o o = true := by
  cases o <;> simp [pyOptEq, Yv.beq_refl]

theorem pyOptEq_of_eq {a b : Option Yv} (h : a = b) : pyOptEq a b = true := by
  subst h; exact pyOptEq_refl a

theorem configs_equal_refl (c : Yv) : configs_equal (some c) (some c) = true := by
  simp [configs_equal, pyOptEq_refl]

/-! ### Claim C7 -/

/-- C7: reading the existing document yields absence (`None`) exactly
when the file does not exist or its contents fail to parse; the read is a
total function, so a parse failure is never surfaced as an error and
never aborts the invocation — it is treated identically to a missing
file. -/
theorem C7_parse_failure_is_absence (fs : FS) (filepath : String) :
    read_existing_config fs filepath = none ↔
      (fs filepath = none ∨ fs filepath = some FileContent.malformed) := by
  unfold read_existing_config
  cases h : fs filepath with
  | none => simp
  | some c => cases c <;> simp

/-! ### Claim C1 -/

/-- C1 counterexample: on status 401 with a decoded error body, the
raised `AuthenticationError` does not carry the original status code —
it is constructed from the message alone and (unlike the other three
failure kinds) stores no `status_code` attribute. -/
theorem C1_counterexample :
    (handle_error 401 [("error", Yv.str "Unauthorized")]).statusCode
      ≠ some 401 := by
  have h : (handle_error 401 [("error", Yv.str "Unauthorized")]).statusCode
      = none := rfl
  rw [h]
  simp

/-- C1 (amended): for every decoded error body, each status code in
{401, 404, 429, 500, 503} is classified into exactly one failure kind per
the table — 401 to Authentication, 404 to NotFound, 429 to RateLimit, 500
and 503 to the generic API failure. The 404/429/500/503 failures carry
the original status code and the raw body; the 401 Authentication failure
carries only the extracted message and no status code. -/
theorem C1_error_classification (kvs : List (String × Yv)) :
    handle_error 401 kvs
        = PatronusExc.authenticationError (extractedMessage kvs) ∧
    handle_error 404 kvs
        = PatronusExc.notFoundError (extractedMessage kvs) (some 404)
            (some (Yv.map kvs)) ∧
    handle_error 429 kvs
        = PatronusExc.rateLimitError (extractedMessage kvs) (some 429)
            (some (Yv.map kvs)) ∧
    handle_error 500 kvs
        = PatronusExc.apiError (extractedMessage kvs) (some 500)
            (some (Yv.map kvs)) ∧
    handle_error 503 kvs
        = PatronusExc.apiError (extractedMessage kvs) (some 503)
            (some (Yv.map kvs)) :=
  ⟨rfl, rfl, rfl, rfl, rfl⟩

/-! ### Claim C4 -/

/-- C4: classifying any non-success response whose decoded body lacks an
`error` key produces a failure whose message is the fixed placeholder
"Unknown error"; `handle_error` is a total function of the status code
and decoded body, so classification itself never fails. -/
theorem C4_unknown_error_placeholder (status_code : Int)
    (kvs : List (String × Yv)) (h : lookupFirst "error" kvs = none) :
    (handle_error status_code kvs).message = Yv.str "Unknown error" := by
  unfold handle_error extractedMessage
  rw [h]
  split_ifs <;> rfl

/-- C4 witness: HTTP 500 with the empty body `{}` yields the placeholder
message (Scenario E of the spec). -/
theorem C4_witness :
    lookupFirst "error" ([] : List (String × Yv)) = none ∧
      (handle_error 500 []).message = Yv.str "Unknown error" :=
  ⟨rfl, C4_unknown_error_placeholder 500 [] rfl⟩

/-! ### Claim C5 -/

/-- C5 counterexample: a non-matching status (500 on `list`, which
expects 200) whose decoded body is not a mapping does **not** raise a
typed failure — `_handle_error` evaluates `response_data.get(...)` on the
non-dict body and an untyped `AttributeError` escapes instead. -/
theorem C5_counterexample :
    (500 : Int) ≠ 200 ∧
      AsyncSitesAPI.list ⟨500, Yv.list [Yv.int 1, Yv.int 2, Yv.int 3]⟩
        = CallResult.decodeFailure :=
  ⟨by decide, rfl⟩

/-- C5 (amended): for the async sites resource group, `list` and `get`
return a decoded typed result exactly when the status is 200 and the
body decodes (`list` decoding the array under the `sites` collection
key), `create` returns a decoded `Site` exactly when the status is
literally 201, and `delete` returns unit exactly when the status is
literally 204. Every non-matching status is handed to the classifier
before any decoding, so no partially-decoded result is ever returned;
when the decoded error body is a mapping this raises exactly the typed
classified failure, and when it is not a mapping the classification
itself raises an untyped error (`AttributeError`), not a typed
failure. -/
theorem C5_async_sites_status_contract (resp : HttpResponse) :
    ((∃ sites, AsyncSitesAPI.list resp = .ok sites) ↔
        resp.status_code = 200 ∧ (decodeSitesBody resp.json).isSome) ∧
    (∀ kvs, resp.json = Yv.map kvs → resp.status_code ≠ 200 →
        AsyncSitesAPI.list resp
          = .apiFailure (handle_error resp.status_code kvs)) ∧
    (resp.json.isMap = false → resp.status_code ≠ 200 →
        AsyncSitesAPI.list resp = .decodeFailure) ∧
    ((∃ site, AsyncSitesAPI.get resp = .ok site) ↔
        resp.status_code = 200 ∧ (decodeSite resp.json).isSome) ∧
    (∀ kvs, resp.json = Yv.map kvs → resp.status_code ≠ 200 →
        AsyncSitesAPI.get resp
          = .apiFailure (handle_error resp.status_code kvs)) ∧
    (resp.json.isMap = false → resp.status_code ≠ 200 →
        AsyncSitesAPI.get resp = .decodeFailure) ∧
    ((∃ site, AsyncSitesAPI.create resp = .ok site) ↔
        resp.status_code = 201 ∧ (decodeSite resp.json).isSome) ∧
    (∀ kvs, resp.json = Yv.map kvs → resp.status_code ≠ 201 →
        AsyncSitesAPI.create resp
          = .apiFailure (handle_error resp.status_code kvs)) ∧
    (resp.json.isMap = false → resp.status_code ≠ 201 →
        AsyncSitesAPI.create resp = .decodeFailure) ∧
    (AsyncSitesAPI.delete resp = .ok () ↔ resp.status_code = 204) ∧
    (∀ kvs, resp.json = Yv.map kvs → resp.status_code ≠ 204 →
        AsyncSitesAPI.delete resp
          = .apiFailure (handle_error resp.status_code kvs)) ∧
    (resp.json.isMap = false → resp.status_code ≠ 204 →
        AsyncSitesAPI.delete resp = .decodeFailure) := by
  refine ⟨?_, ?_, ?_, ?_, ?_, ?_, ?_, ?_, ?_, ?_, ?_, ?_⟩
  · constructor
    · rintro ⟨sites, h⟩
      by_cases hs : resp.status_code = 200
      · refine ⟨hs, ?_⟩
        simp only [AsyncSitesAPI.list, hs, ne_eq, not_true_eq_false,
          if_false] at h
        cases hd : decodeSitesBody resp.json <;> simp [hd] at h
        simp [hd]
      · cases hj : resp.json <;>
          simp [AsyncSitesAPI.list, hs, raiseClassified, hj] at h
    · rintro ⟨hs, hd⟩
      obtain ⟨xs, hxs⟩ := Option.isSome_iff_exists.mp hd
      exact ⟨xs, by simp [AsyncSitesAPI.list, hs, hxs]⟩
  · intro kvs hm hs
    simp [AsyncSitesAPI.list, hs, raiseClassified, hm]
  · intro hm hs
    cases hj : resp.json <;>
      simp [AsyncSitesAPI.list, hs, raiseClassified, Yv.isMap, hj] at hm ⊢
  · constructor
    · rintro ⟨site, h⟩
      by_cases hs : resp.status_code = 200
      · refine ⟨hs, ?_⟩
        simp only [AsyncSitesAPI.get, hs, ne_eq, not_true_eq_false,
          if_false] at h
        cases hd : decodeSite resp.json <;> simp [hd] at h
        simp [hd]
      · cases hj : resp.json <;>
          simp [AsyncSitesAPI.get, hs, raiseClassified, hj] at h
    · rintro ⟨hs, hd⟩
      obtain ⟨x, hx⟩ := Option.isSome_iff_exists.mp hd
      exact ⟨x, by simp [AsyncSitesAPI.get, hs, hx]⟩
  · intro kvs hm hs
    simp [AsyncSitesAPI.get, hs, raiseClassified, hm]
  · intro hm hs
    cases hj : resp.json <;>
      simp [AsyncSitesAPI.get, hs, raiseClassified, Yv.isMap, hj] at hm ⊢
  · constructor
    · rintro ⟨site, h⟩
      by_cases hs : resp.status_code = 201
      · refine ⟨hs, ?_⟩
        simp only [AsyncSitesAPI.create, hs, ne_eq, not_true_eq_false,
          if_false] at h
        cases hd : decodeSite resp.json <;> simp [hd] at h
        simp [hd]
      · cases hj : resp.json <;>
          simp [AsyncSitesAPI.create, hs, raiseClassified, hj] at h
    · rintro ⟨hs, hd⟩
      obtain ⟨x, hx⟩ := Option.isSome_iff_exists.mp hd
      exact ⟨x, by simp [AsyncSitesAPI.create, hs, hx]⟩
  · intro kvs hm hs
    simp [AsyncSitesAPI.create, hs, raiseClassified, hm]
  · intro hm hs
    cases hj : resp.json <;>
      simp [AsyncSitesAPI.create, hs, raiseClassified, Yv.isMap, hj] at hm ⊢
  · constructor
    · intro h
      by_cases hs : resp.status_code = 204
      · exact hs
      · cases hj : resp.json <;>
          simp [AsyncSitesAPI.delete, hs, raiseClassified, hj] at h
    · intro hs
      simp [AsyncSitesAPI.delete, hs]
  · intro kvs hm hs
    simp [AsyncSitesAPI.delete, hs, raiseClassified, hm]
  · intro hm hs
    cases hj : resp.json <;>
      simp [AsyncSitesAPI.delete, hs, raiseClassified, Yv.isMap, hj] at hm ⊢

/-- C5 witness: a delete call answered with status 500 and the dict body
`{}` raises the classified generic API failure, while a get call
answered with status 500 and an array body escapes with the untyped
error. -/
theorem C5_witness :
    AsyncSitesAPI.delete ⟨500, Yv.map []⟩
        = CallResult.apiFailure (handle_error 500 []) ∧
    AsyncSitesAPI.get ⟨500, Yv.list []⟩ = CallResult.decodeFailure := by
  obtain ⟨-, -, -, -, -, -, -, -, -, -, hdel, -⟩ :=
    C5_async_sites_status_contract ⟨500, Yv.map []⟩
  obtain ⟨-, -, -, -, -, hget, -⟩ :=
    C5_async_sites_status_contract ⟨500, Yv.list []⟩
  exact ⟨hdel [] rfl (by decide), hget rfl (by decide)⟩

theorem lookupFirst_append (k : String) (xs ys : List (String × Yv)) :
    lookupFirst k (xs ++ ys) = (lookupFirst k xs).or (lookupFirst k ys) := by
  induction xs with
  | nil => simp [lookupFirst]
  | cons hd tl ih =>
      obtain ⟨k', v⟩ := hd
      by_cases h : k' = k <;> simp [lookupFirst, h, ih]

theorem lookupFirst_optStrEntry_self (key : String) (o : Option String) :
    lookupFirst key (optStrEntry key o)
      = match o with
        | some s => if s = "" then none else some (Yv.str s)
        | none => none := by
  cases o with
  | none => rfl
  | some s => by_cases h : s = "" <;> simp [optStrEntry, h, lookupFirst]

theorem lookupFirst_optStrEntry_ne {k key : String} (h : k ≠ key)
    (o : Option String) : lookupFirst k (optStrEntry key o) = none := by
  cases o with
  | none => rfl
  | some s =>
      by_cases hs : s = "" <;> simp [optStrEntry, hs, lookupFirst, Ne.symm h]

theorem lookupFirst_optIntEntry_self (key : String) (o : Option Int) :
    lookupFirst key (optIntEntry key o)
      = match o with
        | some n => if n = 0 then none else some (Yv.int n)
        | none => none := by
  cases o with
  | none => rfl
  | some n => by_cases h : n = 0 <;> simp [optIntEntry, h, lookupFirst]

theorem lookupFirst_optIntEntry_ne {k key : String} (h : k ≠ key)
    (o : Option Int) : lookupFirst k (optIntEntry key o) = none := by
  cases o with
  | none => rfl
  | some n =>
      by_cases hn : n = 0 <;> simp [optIntEntry, hn, lookupFirst, Ne.symm h]

/-! ### Claim C3 -/

/-- The value an optional string parameter contributes to the generated
spec: present exactly when the parameter is provided and truthy (a
non-empty string). -/
def truthyStrVal : Option String → Option Yv
  | none => none
  | some s => if s = "" then none else some (Yv.str s)

/-- The value an optional int parameter contributes to the generated
spec: present exactly when the parameter is provided and truthy
(non-zero). -/
def truthyIntVal : Option Int → Option Yv
  | none => none
  | some n => if n = 0 then none else some (Yv.int n)

/-- A NAT rule parameter set that provides `translation_port = 0`. -/
def natZeroPortParams : nat_rule.Params :=
  { name := "pf", nat_type := "port_forward", interface := "wan0",
    translation_port := some 0 }

/-- C3 counterexample: `translation_port` is provided (with the integer
0), yet the generated document's spec does not contain the
`translation_port` key — `if params.get('translation_port')` tests Python
truthiness, and 0 is falsy. -/
theorem C3_counterexample :
    natZeroPortParams.translation_port = some 0 ∧
      lookupFirst "translation_port" (nat_rule.specEntries natZeroPortParams)
        = none :=
  ⟨rfl, rfl⟩

/-- C3 (amended): each optional NAT spec field appears as a key in the
generated document's spec mapping iff its parameter was provided with a
truthy value — a non-empty string for the address/protocol fields, a
non-zero integer for the port fields — and then it is bound to exactly
the provided value; an unset parameter's key is absent (not null or
empty), and so is a provided-but-falsy one (empty string, port 0). -/
theorem C3_optional_field_omission (p : nat_rule.Params) :
    (nat_rule.generate_config p).getKey "spec"
        = some (Yv.map (nat_rule.specEntries p)) ∧
    lookupFirst "source_address" (nat_rule.specEntries p)
        = truthyStrVal p.source_address ∧
    lookupFirst "dest_address" (nat_rule.specEntries p)
        = truthyStrVal p.dest_address ∧
    lookupFirst "translation_address" (nat_rule.specEntries p)
        = truthyStrVal p.translation_address ∧
    lookupFirst "translation_port" (nat_rule.specEntries p)
        = truthyIntVal p.translation_port ∧
    lookupFirst "protocol" (nat_rule.specEntries p)
        = truthyStrVal p.protocol ∧
    lookupFirst "dest_port" (nat_rule.specEntries p)
        = truthyIntVal p.dest_port := by
  refine ⟨rfl, ?_, ?_, ?_, ?_, ?_, ?_⟩ <;>
    simp [nat_rule.specEntries, lookupFirst_append, lookupFirst,
      lookupFirst_optStrEntry_self, lookupFirst_optStrEntry_ne,
      lookupFirst_optIntEntry_self, lookupFirst_optIntEntry_ne,
      truthyStrVal, truthyIntVal]
  · cases p.source_address with
    | none => rfl
    | some s => by_cases h : s = "" <;> simp [h]
  · cases p.dest_address with
    | none => rfl
    | some s => by_cases h : s = "" <;> simp [h]
  · cases p.translation_address with
    | none => rfl
    | some s => by_cases h : s = "" <;> simp [h]
  · cases p.translation_port with
    | none => rfl
    | some n => by_cases h : n = 0 <;> simp [h]
  · cases p.protocol with
    | none => rfl
    | some s => by_cases h : s = "" <;> simp [h]
  · cases p.dest_port with
    | none => rfl
    | some n => by_cases h : n = 0 <;> simp [h]

/-! ### Claim C2 -/

/-- Scenario A's firewall parameters: `allow-ssh`, action allow,
protocol tcp, dest_ports [22], everything else at its default. -/
def scenarioAParams : firewall_rule.Params :=
  { name := "allow-ssh", action := "allow", protocol := some "tcp",
    dest_ports := some [22] }

/-- A concrete NAT rule parameter set (port-forward 80 on wan0). -/
def natWebParams : nat_rule.Params :=
  { name := "web", nat_type := "port_forward", interface := "wan0",
    dest_port := some 80 }

/-- C2: applying `state=present` twice with the same parameters — the
second run reading the file the first run wrote — reports
`changed=false` on the second application, for every parameter
combination and every starting file system, for both the firewall and
the NAT rule module. -/
theorem C2_present_idempotent (pf : firewall_rule.Params)
    (pn : nat_rule.Params) (fs fs' : FS)
    (hf : pf.state = "present") (hn : pn.state = "present") :
    (firewall_rule.main pf false
        ((firewall_rule.main pf false fs).2)).1.changed = false ∧
    (nat_rule.main pn false ((nat_rule.main pn false fs').2)).1.changed
        = false := by
  constructor
  · by_cases h : configs_equal
        (read_existing_config fs
          (firewall_rule.config_file_path pf.config_path pf.name))
        (some (firewall_rule.generate_config pf)) = true
    · simp [firewall_rule.main, hf, h]
    · have hr : read_existing_config
          (write_config fs
            (firewall_rule.config_file_path pf.config_path pf.name)
            (firewall_rule.generate_config pf))
          (firewall_rule.config_file_path pf.config_path pf.name)
          = some (firewall_rule.generate_config pf) := by
        simp [read_existing_config, write_config]
      simp [firewall_rule.main, hf, h, hr, configs_equal_refl]
  · by_cases h : configs_equal
        (read_existing_config fs'
          (nat_rule.config_file_path pn.config_path pn.name))
        (some (nat_rule.generate_config pn)) = true
    · simp [nat_rule.main, hn, h]
    · have hr : read_existing_config
          (write_config fs'
            (nat_rule.config_file_path pn.config_path pn.name)
            (nat_rule.generate_config pn))
          (nat_rule.config_file_path pn.config_path pn.name)
          = some (nat_rule.generate_config pn) := by
        simp [read_existing_config, write_config]
      simp [nat_rule.main, hn, h, hr, configs_equal_refl]

/-- C2 witness: Scenario A's firewall parameters and a concrete NAT rule
applied twice from the empty file system report no change the second
time. -/
theorem C2_witness :
    scenarioAParams.state = "present" ∧
    natWebParams.state = "present" ∧
    (firewall_rule.main scenarioAParams false
        ((firewall_rule.main scenarioAParams false emptyFS).2)).1.changed
      = false ∧
    (nat_rule.main natWebParams false
        ((nat_rule.main natWebParams false emptyFS).2)).1.changed
      = false :=
  ⟨rfl, rfl,
    (C2_present_idempotent scenarioAParams natWebParams emptyFS emptyFS
      rfl rfl).1,
    (C2_present_idempotent scenarioAParams natWebParams emptyFS emptyFS
      rfl rfl).2⟩

/-! ### Claim C8 -/

/-- C8 (Scenario A): the firewall module with name=allow-ssh,
action=allow, protocol=tcp, dest_ports=[22] and all other optional
parameters unset (defaults log=false, enabled=true), run against an
empty file system, uses the file path
`/etc/patronus/config/FirewallRule-allow-ssh.yaml`, reports
`changed=true` with the created message, returns the generated document
as the rule, writes that document to the path, and the document's spec is
exactly {action: allow, log: false, enabled: true, protocol: tcp,
destination: {ports: [22]}}. -/
theorem C8_scenario_a :
    firewall_rule.config_file_path "/etc/patronus/config" "allow-ssh"
      = "/etc/patronus/config/FirewallRule-allow-ssh.yaml" ∧
    (firewall_rule.main scenarioAParams false emptyFS).1.changed = true ∧
    (firewall_rule.main scenarioAParams false emptyFS).1.message
      = "Created firewall rule \x27allow-ssh\x27" ∧
    (firewall_rule.main scenarioAParams false emptyFS).1.rule
      = some (firewall_rule.generate_config scenarioAParams) ∧
    (firewall_rule.generate_config scenarioAParams).getKey "spec"
      = some (Yv.map
          [("action", Yv.str "allow"),
           ("log", Yv.bool false),
           ("enabled", Yv.bool true),
           ("protocol", Yv.str "tcp"),
           ("destination", Yv.map [("ports", Yv.list [Yv.int 22])])]) ∧
    (firewall_rule.main scenarioAParams false emptyFS).2
        "/etc/patronus/config/FirewallRule-allow-ssh.yaml"
      = some (FileContent.parses
          (firewall_rule.generate_config scenarioAParams)) :=
  ⟨rfl, rfl, rfl, rfl, rfl, rfl⟩

/-! ### Claim C9 -/

/-- C9: for every parameter set and every starting file system, a
check-mode (dry) run reports exactly the same result — changed flag,
message, and rule document — as a real run would, and leaves the file
system unchanged (no write and no delete), for both modules. -/
theorem C9_check_mode_frame (pf : firewall_rule.Params)
    (pn : nat_rule.Params) (fs fs' : FS) :
    (firewall_rule.main pf true fs).1 = (firewall_rule.main pf false fs).1 ∧
    (firewall_rule.main pf true fs).2 = fs ∧
    (nat_rule.main pn true fs').1 = (nat_rule.main pn false fs').1 ∧
    (nat_rule.main pn true fs').2 = fs' := by
  refine ⟨?_, ?_, ?_, ?_⟩
  · by_cases h1 : pf.state = "present"
    · by_cases h2 : configs_equal
          (read_existing_config fs
            (firewall_rule.config_file_path pf.config_path pf.name))
          (some (firewall_rule.generate_config pf)) = true
      · simp [firewall_rule.main, h1, h2]
      · simp [firewall_rule.main, h1, h2]
    · by_cases h3 : pf.state = "absent"
      · cases hex : read_existing_config fs
            (firewall_rule.config_file_path pf.config_path pf.name) <;>
          simp [firewall_rule.main, h1, h3, hex]
      · simp [firewall_rule.main, h1, h3]
  · by_cases h1 : pf.state = "present"
    · by_cases h2 : configs_equal
          (read_existing_config fs
            (firewall_rule.config_file_path pf.config_path pf.name))
          (some (firewall_rule.generate_config pf)) = true
      · simp [firewall_rule.main, h1, h2]
      · simp [firewall_rule.main, h1, h2]
    · by_cases h3 : pf.state = "absent"
      · cases hex : read_existing_config fs
            (firewall_rule.config_file_path pf.config_path pf.name) <;>
          simp [firewall_rule.main, h1, h3, hex]
      · simp [firewall_rule.main, h1, h3]
  · by_cases h1 : pn.state = "present"
    · by_cases h2 : configs_equal
          (read_existing_config fs'
            (nat_rule.config_file_path pn.config_path pn.name))
          (some (nat_rule.generate_config pn)) = true
      · simp [nat_rule.main, h1, h2]
      · simp [nat_rule.main, h1, h2]
    · by_cases h3 : pn.state = "absent"
      · cases hex : read_existing_config fs'
            (nat_rule.config_file_path pn.config_path pn.name) <;>
          simp [nat_rule.main, h1, h3, hex]
      · simp [nat_rule.main, h1, h3]
  · by_cases h1 : pn.state = "present"
    · by_cases h2 : configs_equal
          (read_existing_config fs'
            (nat_rule.config_file_path pn.config_path pn.name))
          (some (nat_rule.generate_config pn)) = true
      · simp [nat_rule.main, h1, h2]
      · simp [nat_rule.main, h1, h2]
    · by_cases h3 : pn.state = "absent"
      · cases hex : read_existing_config fs'
            (nat_rule.config_file_path pn.config_path pn.name) <;>
          simp [nat_rule.main, h1, h3, hex]
      · simp [nat_rule.main, h1, h3]

/-! ### Claim C6 -/

/-- C6: for every existing document and every parameter set with
state=present, if the existing document's `metadata.name` equals the
desired document's and their `spec` mappings are deep-equal — while the
description or any other metadata field may differ arbitrarily — the
module reports `changed=false` and writes nothing (the file system is
returned untouched), for both modules. -/
theorem C6_description_ignored (pf : firewall_rule.Params)
    (pn : nat_rule.Params) (fs fs' : FS) (docF docN : Yv)
    (hf : pf.state = "present") (hn : pn.state = "present")
    (hreadF : fs (firewall_rule.config_file_path pf.config_path pf.name)
        = some (FileContent.parses docF))
    (hnameF : (docF.getKeyD "metadata" (Yv.map [])).getKey "name"
        = ((firewall_rule.generate_config pf).getKeyD "metadata"
            (Yv.map [])).getKey "name")
    (hspecF : docF.getKey "spec"
        = (firewall_rule.generate_config pf).getKey "spec")
    (hreadN : fs' (nat_rule.config_file_path pn.config_path pn.name)
        = some (FileContent.parses docN))
    (hnameN : (docN.getKeyD "metadata" (Yv.map [])).getKey "name"
        = ((nat_rule.generate_config pn).getKeyD "metadata"
            (Yv.map [])).getKey "name")
    (hspecN : docN.getKey "spec"
        = (nat_rule.generate_config pn).getKey "spec") :
    (firewall_rule.main pf false fs).1.changed = false ∧
    (firewall_rule.main pf false fs).2 = fs ∧
    (nat_rule.main pn false fs').1.changed = false ∧
    (nat_rule.main pn false fs').2 = fs' := by
  have hexF : read_existing_config fs
      (firewall_rule.config_file_path pf.config_path pf.name)
      = some docF := by
    simp [read_existing_config, hreadF]
  have hceqF : configs_equal (some docF)
      (some (firewall_rule.generate_config pf)) = true := by
    simp [configs_equal, pyOptEq_of_eq hnameF, pyOptEq_of_eq hspecF]
  have hexN : read_existing_config fs'
      (nat_rule.config_file_path pn.config_path pn.name)
      = some docN := by
    simp [read_existing_config, hreadN]
  have hceqN : configs_equal (some docN)
      (some (nat_rule.generate_config pn)) = true := by
    simp [configs_equal, pyOptEq_of_eq hnameN, pyOptEq_of_eq hspecN]
  refine ⟨?_, ?_, ?_, ?_⟩ <;>
    simp [firewall_rule.main, nat_rule.main, hf, hn, hexF, hceqF, hexN,
      hceqN]

/-- Scenario A's document with a different description in its metadata
(name and spec unchanged). -/
def scenarioADocOtherDesc : Yv :=
  Yv.map
    [("apiVersion", Yv.str "patronus.firewall/v1"),
     ("kind", Yv.str "FirewallRule"),
     ("metadata", Yv.map
        [("name", Yv.str "allow-ssh"),
         ("description", Yv.str "some other text")]),
     ("spec", Yv.map (firewall_rule.specEntries scenarioAParams))]

/-- The NAT web rule's document with a different description (name and
spec unchanged). -/
def natWebDocOtherDesc : Yv :=
  Yv.map
    [("apiVersion", Yv.str "patronus.firewall/v1"),
     ("kind", Yv.str "NatRule"),
     ("metadata", Yv.map
        [("name", Yv.str "web"),
         ("description", Yv.str "some other text")]),
     ("spec", Yv.map (nat_rule.specEntries natWebParams))]

/-- A file system holding both variant documents at the module paths. -/
def fsOtherDesc : FS := fun p =>
  if p = "/etc/patronus/config/FirewallRule-allow-ssh.yaml" then
    some (FileContent.parses scenarioADocOtherDesc)
  else if p = "/etc/patronus/config/NatRule-web.yaml" then
    some (FileContent.parses natWebDocOtherDesc)
  else none

/-- C6 witness: on-disk documents that differ from the desired ones only
in `metadata.description` yield `changed=false` and an untouched file
system for both concrete modules. -/
theorem C6_witness :
    (firewall_rule.main scenarioAParams false fsOtherDesc).1.changed
        = false ∧
    (firewall_rule.main scenarioAParams false fsOtherDesc).2
        = fsOtherDesc ∧
    (nat_rule.main natWebParams false fsOtherDesc).1.changed = false ∧
    (nat_rule.main natWebParams false fsOtherDesc).2 = fsOtherDesc :=
  C6_description_ignored scenarioAParams natWebParams fsOtherDesc
    fsOtherDesc scenarioADocOtherDesc natWebDocOtherDesc
    rfl rfl rfl rfl rfl rfl rfl rfl

/-! ### Claim C10 -/

/-- Optional `apiVersion` and `kind` entries for an on-disk document: a
document may carry any values for them, or omit either. -/
def avKindEntries (av kd : Option Yv) : List (String × Yv) :=
  (match av with
   | some v => [("apiVersion", v)]
   | none => []) ++
  (match kd with
   | some v => [("kind", v)]
   | none => [])

/-- A document carrying arbitrary or missing `apiVersion`/`kind` entries
but the given config's `metadata` and `spec`. -/
def docWithAvKind (av kd : Option Yv) (config : Yv) : Yv :=
  Yv.map (avKindEntries av kd ++
    [("metadata", config.getKeyD "metadata" (Yv.map [])),
     ("spec", config.getKeyD "spec" (Yv.map []))])

/-- C10 (implicit): the semantic-equality check ignores `apiVersion` and
`kind` entirely — an existing document with the desired `metadata` and
`spec` but an arbitrary, different or missing `apiVersion` or `kind`
yields `changed=false` and an untouched file system, for both modules. -/
theorem C10_apiversion_kind_ignored (pf : firewall_rule.Params)
    (pn : nat_rule.Params) (fs fs' : FS) (av kd av' kd' : Option Yv)
    (hf : pf.state = "present") (hn : pn.state = "present")
    (hreadF : fs (firewall_rule.config_file_path pf.config_path pf.name)
        = some (FileContent.parses
            (docWithAvKind av kd (firewall_rule.generate_config pf))))
    (hreadN : fs' (nat_rule.config_file_path pn.config_path pn.name)
        = some (FileContent.parses
            (docWithAvKind av' kd' (nat_rule.generate_config pn)))) :
    (firewall_rule.main pf false fs).1.changed = false ∧
    (firewall_rule.main pf false fs).2 = fs ∧
    (nat_rule.main pn false fs').1.changed = false ∧
    (nat_rule.main pn false fs').2 = fs' := by
  have hmF : (docWithAvKind av kd
        (firewall_rule.generate_config pf)).getKey "metadata"
      = (firewall_rule.generate_config pf).getKey "metadata" := by
    cases av <;> cases kd <;> rfl
  have hsF : (docWithAvKind av kd
        (firewall_rule.generate_config pf)).getKey "spec"
      = (firewall_rule.generate_config pf).getKey "spec" := by
    cases av <;> cases kd <;> rfl
  have hmN : (docWithAvKind av' kd'
        (nat_rule.generate_config pn)).getKey "metadata"
      = (nat_rule.generate_config pn).getKey "metadata" := by
    cases av' <;> cases kd' <;> rfl
  have hsN : (docWithAvKind av' kd'
        (nat_rule.generate_config pn)).getKey "spec"
      = (nat_rule.generate_config pn).getKey "spec" := by
    cases av' <;> cases kd' <;> rfl
  have hexF : read_existing_config fs
      (firewall_rule.config_file_path pf.config_path pf.name)
      = some (docWithAvKind av kd (firewall_rule.generate_config pf)) := by
    simp [read_existing_config, hreadF]
  have hexN : read_existing_config fs'
      (nat_rule.config_file_path pn.config_path pn.name)
      = some (docWithAvKind av' kd' (nat_rule.generate_config pn)) := by
    simp [read_existing_config, hreadN]
  have hceqF : configs_equal
      (some (docWithAvKind av kd (firewall_rule.generate_config pf)))
      (some (firewall_rule.generate_config pf)) = true := by
    simp [configs_equal, Yv.getKeyD, hmF, hsF, pyOptEq_refl]
  have hceqN : configs_equal
      (some (docWithAvKind av' kd' (nat_rule.generate_config pn)))
      (some (nat_rule.generate_config pn)) = true := by
    simp [configs_equal, Yv.getKeyD, hmN, hsN, pyOptEq_refl]
  refine ⟨?_, ?_, ?_, ?_⟩ <;>
    simp [firewall_rule.main, nat_rule.main, hf, hn, hexF, hceqF, hexN,
      hceqN]

/-- A file system holding, at each module path, the desired document with
its `apiVersion` missing and its `kind` replaced by a wrong value. -/
def fsWrongAvKind : FS := fun p =>
  if p = "/etc/patronus/config/FirewallRule-allow-ssh.yaml" then
    some (FileContent.parses
      (docWithAvKind none (some (Yv.str "SomethingElse"))
        (firewall_rule.generate_config scenarioAParams)))
  else if p = "/etc/patronus/config/NatRule-web.yaml" then
    some (FileContent.parses
      (docWithAvKind (some (Yv.str "patronus.firewall/v2")) none
        (nat_rule.generate_config natWebParams)))
  else none

/-- C10 witness: existing documents with a missing `apiVersion` and a
wrong `kind` (and vice versa) still yield `changed=false` and no write
for both concrete modules. -/
theorem C10_witness :
    (firewall_rule.main scenarioAParams false fsWrongAvKind).1.changed
        = false ∧
    (firewall_rule.main scenarioAParams false fsWrongAvKind).2
        = fsWrongAvKind ∧
    (nat_rule.main natWebParams false fsWrongAvKind).1.changed = false ∧
    (nat_rule.main natWebParams false fsWrongAvKind).2 = fsWrongAvKind :=
  C10_apiversion_kind_ignored scenarioAParams natWebParams fsWrongAvKind
    fsWrongAvKind none (some (Yv.str "SomethingElse"))
    (some (Yv.str "patronus.firewall/v2")) none
    rfl rfl rfl rfl
